import Mathlib

/-!
Verification development for the Baxter RSDK gripper action server
(`baxter_interface/src/gripper_action/gripper_action.py`).

Floats are embedded as rationals (`ℚ`); every constant appearing in the
source (0.0001, 40.0, 100.0, -1.0, 20 Hz) is exactly representable, and
only order comparisons and exact sentinel equalities are performed on them.
The actuator, the action-server transport and wall-clock time are external
collaborators; they are embedded as input traces indexed by the loop tick
(`Env`), and every externally visible call the server makes (`set_aborted`,
`set_succeeded`, `publish_feedback`, `command_position`, `stop`,
`set_moving_force`) is recorded as an `Event`.  The actuator state is read
several times inside one tick by the source; the embedding treats it as
constant within a tick, one `GripperState` per tick index.
-/

/-- Effector type stored at construction from `self._gripper.type()`:
`'electric'` or `'suction'`. -/
inductive EffectorType where
  | electric
  | suction
deriving DecidableEq, Repr

/-- One observation of the actuator during a tick: `position()`, `force()`,
`parameters()['moving_force']` and `gripping()` as reported by the gripper. -/
structure GripperState where
  position : ℚ
  force : ℚ
  movingForceParam : ℚ
  gripping : Bool
deriving DecidableEq, Repr

/-- The `GripperCommandFeedback` message; `self._result` aliases the same
object after every `_update_feedback` call. -/
structure GripperCommandFeedback where
  position : ℚ
  effort : ℚ
  stalled : Bool
  reached_goal : Bool
deriving DecidableEq, Repr

/-- Embedding of `_update_feedback(self, position)`.  Sets `position`,
`effort` and `stalled` from the live actuator state; for the electric type
also sets `reached_goal` from the dead band.  In the suction branch the
source evaluates `self._gripper.gripping()` as a bare statement and discards
the value, so `reached_goal` keeps whatever value the feedback object
already held. -/
def update_feedback (ty : EffectorType) (dead_band : ℚ) (fb : GripperCommandFeedback)
    (g : GripperState) (position : ℚ) : GripperCommandFeedback :=
  let fb1 : GripperCommandFeedback :=
    { fb with
      position := g.position
      effort := g.force
      stalled := decide (g.movingForceParam < g.force) }
  match ty with
  | .electric => { fb1 with reached_goal := decide (|g.position - position| < dead_band) }
  | .suction => fb1

/-- Embedding of the nested `check_state()` closure.  The electric branch
returns `force() > parameters()['moving_force'] or fabs(position() -
position) < dead_band`; the suction branch is commented out in the source,
so for that type the function falls through and returns `None`, which the
call site `if check_state():` treats as false. -/
def check_state (ty : EffectorType) (dead_band : ℚ) (g : GripperState)
    (position : ℚ) : Bool :=
  match ty with
  | .electric =>
      decide (g.movingForceParam < g.force) || decide (|g.position - position| < dead_band)
  | .suction => false

/-- Effort resolution at the top of `_on_gripper_action`: first
`if fabs(effort) < 0.0001: effort = self._default_effort` (40.0), then
`if effort == -1.0: effort = 100.0`. -/
def resolve_effort (max_effort : ℚ) : ℚ :=
  let effort := if |max_effort| < 1/10000 then 40 else max_effort
  if effort = -1 then 100 else effort

/-- The effort policy exactly as the spec words it, for refinement against
`resolve_effort`: a single three-way case split on `maxEffort`. -/
def effortPolicySpec (max_effort : ℚ) : ℚ :=
  if |max_effort| < 1/10000 then 40
  else if max_effort = -1 then 100
  else max_effort

/-- Externally visible calls issued by the action server during one goal. -/
inductive Event where
  | setAbortedEmpty
  | setMovingForce (effort : ℚ)
  | stopCalled
  | commandPosition (p : ℚ)
  | publishFeedback (fb : GripperCommandFeedback)
  | setSucceeded (r : GripperCommandFeedback)
  | setAborted (r : GripperCommandFeedback)
deriving DecidableEq, Repr

/-- Terminal outcome reports: `set_aborted()`, `set_succeeded(result)` or
`set_aborted(result)`. -/
def Event.isTerminal : Event → Bool
  | .setAbortedEmpty => true
  | .setSucceeded _ => true
  | .setAborted _ => true
  | _ => false

def Event.isSucceeded : Event → Bool
  | .setSucceeded _ => true
  | _ => false

def Event.isAbortedResult : Event → Bool
  | .setAborted _ => true
  | _ => false

def Event.isStop : Event → Bool
  | .stopCalled => true
  | _ => false

/-- External collaborators as traces over loop tick indices: the actuator
state observed during tick `n`, the action server's preempt flag polled at
tick `n`, and `now_from_start(start_time)` as evaluated at the `n`-th loop
condition check. -/
structure Env where
  gripper : ℕ → GripperState
  preempt : ℕ → Bool
  elapsed : ℕ → ℚ

/-- The `while` condition:
`now_from_start(start_time) < self._timeout or self._timeout < 0.0`. -/
def loopCond (elapsed timeout : ℚ) : Bool :=
  decide (elapsed < timeout) || decide (timeout < 0)

/-- One iteration of the loop body: poll preemption (`stop()` plus a log on
request), recompute feedback, check convergence; on convergence report
`set_succeeded(self._result)` and leave the loop, otherwise issue the
non-blocking `command_position` and `publish_feedback`.  Returns the events
of the tick, the feedback after `_update_feedback`, and whether the tick
terminated the goal. -/
def loopTick (ty : EffectorType) (dead_band position : ℚ) (g : GripperState)
    (preempt : Bool) (fb : GripperCommandFeedback) :
    List Event × GripperCommandFeedback × Bool :=
  let stopEvs := if preempt then [Event.stopCalled] else []
  let fb' := update_feedback ty dead_band fb g position
  if check_state ty dead_band g position then
    (stopEvs ++ [Event.setSucceeded fb'], fb', true)
  else
    (stopEvs ++ [Event.commandPosition position, Event.publishFeedback fb'], fb', false)

/-- The control loop of `_on_gripper_action`, fuel-bounded: starting at tick
`n`, while the loop condition holds run `loopTick`; when the condition fails
run `_update_feedback` once more and report `set_aborted(self._result)`.
Result `none` means the fuel ran out with the loop still running (no
terminal call was made within the observed prefix). -/
def runLoop (ty : EffectorType) (dead_band timeout position : ℚ) (env : Env) :
    ℕ → ℕ → GripperCommandFeedback → List Event × Option GripperCommandFeedback
  | 0, _, _ => ([], none)
  | fuel + 1, n, fb =>
    if loopCond (env.elapsed n) timeout then
      let t := loopTick ty dead_band position (env.gripper n) (env.preempt n) fb
      if t.2.2 then (t.1, some t.2.1)
      else
        let rest := runLoop ty dead_band timeout position env fuel (n + 1) t.2.1
        (t.1 ++ rest.1, rest.2)
    else
      let fb' := update_feedback ty dead_band fb (env.gripper n) position
      ([Event.setAborted fb'], some fb')

/-- Embedding of `_on_gripper_action(self, goal)` with the control
parameters already resolved: resolve effort, check `self._gripper.error()`
(on error the source calls `set_aborted()` and logs, but does not return),
compute the initial feedback, `set_moving_force(effort)` for the electric
type, then run the control loop from tick 1 (tick 0 denotes the actuator
state read by the initial `_update_feedback`). -/
def on_gripper_action (ty : EffectorType) (err : Bool) (dead_band timeout : ℚ)
    (goal_position goal_max_effort : ℚ) (env : Env) (fuel : ℕ)
    (fb0 : GripperCommandFeedback) : List Event × Option GripperCommandFeedback :=
  let effort := resolve_effort goal_max_effort
  let errEvs := if err then [Event.setAbortedEmpty] else []
  let fb1 := update_feedback ty dead_band fb0 (env.gripper 0) goal_position
  let mfEvs := match ty with
    | .electric => [Event.setMovingForce effort]
    | .suction => []
  let r := runLoop ty dead_band timeout goal_position env fuel 1 fb1
  (errEvs ++ mfEvs ++ r.1, r.2)

/-- The per-goal mutable parameter fields of the server:
`_timeout`, `_dead_band`, `_velocity`, `_moving_force`, `_holding_force`. -/
structure ServerParams where
  timeout : ℚ
  dead_band : ℚ
  velocity : ℚ
  moving_force : ℚ
  holding_force : ℚ
deriving DecidableEq, Repr

/-- Configuration storage `self._param.config`: a keyed map; indexing a
missing key raises `KeyError`. -/
def Config := String → Option ℚ

/-- Embedding of `_get_gripper_parameters(self)`.  Each line indexes
`self._param.config[self._ee + <suffix>]` and assigns one field; a missing
key raises `KeyError` at that line, so `.error st` carries the field values
assigned before the raise (earlier assignments persist on the object).  The
electric branch finally pushes the four actuation parameters to
`self._gripper.set_parameters`, which does not change the server fields and
is not recorded here. -/
def get_gripper_parameters (ty : EffectorType) (ee : String) (cfg : Config)
    (st : ServerParams) : Except ServerParams ServerParams :=
  match cfg (ee ++ "_timeout") with
  | none => .error st
  | some t =>
    let st := { st with timeout := t }
    match ty with
    | .suction => .ok st
    | .electric =>
      match cfg (ee ++ "_goal") with
      | none => .error st
      | some db =>
        let st := { st with dead_band := db }
        match cfg (ee ++ "_velocity") with
        | none => .error st
        | some v =>
          let st := { st with velocity := v }
          match cfg (ee ++ "_moving_force") with
          | none => .error st
          | some mf =>
            let st := { st with moving_force := mf }
            match cfg (ee ++ "_holding_force") with
            | none => .error st
            | some hf => .ok { st with holding_force := hf }

/-- Embedding of `_on_gripper_action` including the
`_get_gripper_parameters` call: a `KeyError` raised there propagates out of
the execute callback (`.error` with the partially updated fields), and no
loop runs.  On success the loop uses the freshly resolved timeout and dead
band. -/
def on_gripper_action_cfg (ty : EffectorType) (ee : String) (cfg : Config)
    (err : Bool) (st : ServerParams) (goal_position goal_max_effort : ℚ)
    (env : Env) (fuel : ℕ) (fb0 : GripperCommandFeedback) :
    Except ServerParams (List Event × Option GripperCommandFeedback) :=
  let effort := resolve_effort goal_max_effort
  let errEvs := if err then [Event.setAbortedEmpty] else []
  match get_gripper_parameters ty ee cfg st with
  | .error st' => .error st'
  | .ok st' =>
    let fb1 := update_feedback ty st'.dead_band fb0 (env.gripper 0) goal_position
    let mfEvs := match ty with
      | .electric => [Event.setMovingForce effort]
      | .suction => []
    let r := runLoop ty st'.dead_band st'.timeout goal_position env fuel 1 fb1
    .ok (errEvs ++ mfEvs ++ r.1, r.2)

/-- Concrete fixture: a gripper whose reported force (30) exceeds its
moving-force parameter (20), so the electric convergence check fires on
force alone. -/
def gHigh : GripperState :=
  { position := 0, force := 30, movingForceParam := 20, gripping := false }

/-- Concrete fixture: a gripper far from any target, below the force
threshold and not gripping. -/
def gFar : GripperState :=
  { position := 0, force := 1, movingForceParam := 20, gripping := false }

/-- Trace in which the actuator always reports `gHigh`, preemption is never
requested, and the wall clock advances one second per tick. -/
def envHigh : Env :=
  { gripper := fun _ => gHigh, preempt := fun _ => false, elapsed := fun n => (n : ℚ) }

/-- Trace in which the actuator always reports `gFar`, preemption is never
requested, and the wall clock advances one second per tick. -/
def envFar : Env :=
  { gripper := fun _ => gFar, preempt := fun _ => false, elapsed := fun n => (n : ℚ) }

/-- A zeroed feedback/result object, as after construction. -/
def fbZero : GripperCommandFeedback :=
  { position := 0, effort := 0, stalled := false, reached_goal := false }

theorem loopTick_snd (ty : EffectorType) (dead_band position : ℚ) (g : GripperState)
    (p : Bool) (fb : GripperCommandFeedback) :
    (loopTick ty dead_band position g p fb).2 =
      (loopTick ty dead_band position g false fb).2 := by
  cases p <;> rcases hc : check_state ty dead_band g position <;> simp [loopTick, hc]

theorem loopTick_fst (ty : EffectorType) (dead_band position : ℚ) (g : GripperState)
    (p : Bool) (fb : GripperCommandFeedback) :
    (loopTick ty dead_band position g p fb).1 =
      (if p then [Event.stopCalled] else []) ++ (loopTick ty dead_band position g false fb).1 := by
  cases p <;> rcases hc : check_state ty dead_band g position <;> simp [loopTick, hc]

theorem loopTick_filter_terminal (ty : EffectorType) (dead_band position : ℚ)
    (g : GripperState) (p : Bool) (fb : GripperCommandFeedback) :
    (loopTick ty dead_band position g p fb).1.filter Event.isTerminal =
      (if check_state ty dead_band g position then
        [Event.setSucceeded (update_feedback ty dead_band fb g position)] else []) := by
  cases p <;> rcases hc : check_state ty dead_band g position <;>
    simp [loopTick, hc, Event.isTerminal]

theorem loopTick_countSucceeded (ty : EffectorType) (dead_band position : ℚ)
    (g : GripperState) (p : Bool) (fb : GripperCommandFeedback) :
    (loopTick ty dead_band position g p fb).1.countP (fun e => Event.isSucceeded e) =
      (if check_state ty dead_band g position then 1 else 0) := by
  cases p <;> rcases hc : check_state ty dead_band g position <;>
    simp [loopTick, hc, Event.isSucceeded]

theorem loopTick_countAborted (ty : EffectorType) (dead_band position : ℚ)
    (g : GripperState) (p : Bool) (fb : GripperCommandFeedback) :
    (loopTick ty dead_band position g p fb).1.countP (fun e => Event.isAbortedResult e) = 0 := by
  cases p <;> rcases hc : check_state ty dead_band g position <;>
    simp [loopTick, hc, Event.isAbortedResult]

theorem loopTick_countStop (ty : EffectorType) (dead_band position : ℚ)
    (g : GripperState) (p : Bool) (fb : GripperCommandFeedback) :
    (loopTick ty dead_band position g p fb).1.countP (fun e => Event.isStop e) =
      (if p then 1 else 0) := by
  cases p <;> rcases hc : check_state ty dead_band g position <;>
    simp [loopTick, hc, Event.isStop]

/-- C3: effort resolution agrees everywhere with the spec's three-way
policy (below the 0.0001 epsilon substitute the default 40.0; at the -1.0
sentinel substitute 100.0; otherwise pass the requested effort through),
and takes the four concrete values the spec lists. -/
theorem effort_resolution_matches_policy :
    (∀ e : ℚ, resolve_effort e = effortPolicySpec e) ∧
    resolve_effort 0 = 40 ∧ resolve_effort (1/20000) = 40 ∧
    resolve_effort (-1) = 100 ∧ resolve_effort 25 = 25 := by
  have hpt : ∀ e : ℚ, resolve_effort e = effortPolicySpec e := by
    intro e
    unfold resolve_effort effortPolicySpec
    by_cases h : |e| < 1/10000
    · rw [if_pos h]
      rw [if_pos h]
      norm_num
    · rw [if_neg h]
      rw [if_neg h]
  refine ⟨hpt, ?_, ?_, ?_, ?_⟩ <;> rw [hpt] <;> unfold effortPolicySpec <;>
    norm_num [abs_lt]

/-- C9: the feedback computation is deterministic in its inputs, and
applying it a second time to the same actuator state, target and thresholds
leaves the feedback object unchanged in every field, for both effector
types. -/
theorem update_feedback_idempotent (ty : EffectorType) (dead_band position : ℚ)
    (g : GripperState) (fb : GripperCommandFeedback) :
    update_feedback ty dead_band (update_feedback ty dead_band fb g position) g position =
      update_feedback ty dead_band fb g position := by
  cases ty <;> rfl

/-- Concrete fixture for the suction feedback computation: position 3,
force 7, moving-force parameter 5, not gripping. -/
def gSuck : GripperState :=
  { position := 3, force := 7, movingForceParam := 5, gripping := false }

/-- A feedback object whose `reached_goal` flag is still true from an
earlier computation. -/
def fbPrior : GripperCommandFeedback :=
  { position := 0, effort := 0, stalled := false, reached_goal := true }

/-- C8 at the failing input: for the suction type the source evaluates
`self._gripper.gripping()` and discards the value, so with a prior
`reached_goal = true` and an actuator reporting `gripping() = false` the
computed snapshot keeps `reached_goal = true` instead of taking the
gripping boolean; position, effort and stalled are set as claimed. -/
theorem update_feedback_suction_discards_gripping :
    (update_feedback .suction 2 fbPrior gSuck 4).position = 3 ∧
    (update_feedback .suction 2 fbPrior gSuck 4).effort = 7 ∧
    (update_feedback .suction 2 fbPrior gSuck 4).stalled = true ∧
    (update_feedback .suction 2 fbPrior gSuck 4).reached_goal = true ∧
    gSuck.gripping = false := by
  refine ⟨rfl, rfl, ?_, rfl, rfl⟩
  norm_num [update_feedback, gSuck, fbPrior]

/-- C7: whenever the loop condition evaluates false, the loop exits through
the timeout path: the feedback snapshot is recomputed exactly once more
from the actuator state at that moment and the single terminal report is
`set_aborted` carrying that fresh snapshot as the result. -/
theorem timeout_exit_aborts_with_fresh_feedback (ty : EffectorType)
    (dead_band timeout position : ℚ) (env : Env) (fuel n : ℕ)
    (fb : GripperCommandFeedback)
    (h : loopCond (env.elapsed n) timeout = false) :
    runLoop ty dead_band timeout position env (fuel + 1) n fb =
      ([Event.setAborted (update_feedback ty dead_band fb (env.gripper n) position)],
        some (update_feedback ty dead_band fb (env.gripper n) position)) := by
  simp [runLoop, h]

/-- Witness for C7: with timeout 0 the very first loop condition check
fails and the run reports `set_aborted` with the freshly computed
feedback. -/
theorem timeout_exit_aborts_with_fresh_feedback_witness :
    loopCond (envFar.elapsed 1) 0 = false ∧
    runLoop .electric 2 0 50 envFar 1 1 fbZero =
      ([Event.setAborted (update_feedback .electric 2 fbZero (envFar.gripper 1) 50)],
        some (update_feedback .electric 2 fbZero (envFar.gripper 1) 50)) :=
  ⟨by norm_num [loopCond, envFar],
    timeout_exit_aborts_with_fresh_feedback .electric 2 0 50 envFar 0 1 fbZero
      (by norm_num [loopCond, envFar])⟩

/-- C1 at the failing input: with `error()` true at the precondition check
and an actuator whose force (30) exceeds the moving-force parameter (20) on
the first tick, the callback reports `set_aborted()` at the error check
(the source does not return there) and then also `set_succeeded(result)`
from the loop: two terminal outcome reports for the same goal. -/
theorem error_goal_reports_two_terminal_outcomes :
    (on_gripper_action .electric true 2 5 50 0 envHigh 3 fbZero).1 =
      [Event.setAbortedEmpty, Event.setMovingForce 40,
        Event.setSucceeded
          { position := 0, effort := 30, stalled := true, reached_goal := false }] ∧
    (on_gripper_action .electric true 2 5 50 0 envHigh 3 fbZero).1.countP
        (fun e => Event.isTerminal e) = 2 := by
  have h : (on_gripper_action .electric true 2 5 50 0 envHigh 3 fbZero).1 =
      [Event.setAbortedEmpty, Event.setMovingForce 40,
        Event.setSucceeded
          { position := 0, effort := 30, stalled := true, reached_goal := false }] := by
    norm_num [on_gripper_action, runLoop, loopTick, loopCond, update_feedback,
      check_state, resolve_effort, envHigh, gHigh, fbZero, abs_sub_lt_iff]
  refine ⟨h, ?_⟩
  rw [h]
  simp [Event.isTerminal]

theorem loopTick_done (ty : EffectorType) (dead_band position : ℚ) (g : GripperState)
    (p : Bool) (fb : GripperCommandFeedback) :
    (loopTick ty dead_band position g p fb).2.2 = check_state ty dead_band g position := by
  cases p <;> rcases hc : check_state ty dead_band g position <;> simp [loopTick, hc]

theorem loopTick_fb (ty : EffectorType) (dead_band position : ℚ) (g : GripperState)
    (p : Bool) (fb : GripperCommandFeedback) :
    (loopTick ty dead_band position g p fb).2.1 =
      update_feedback ty dead_band fb g position := by
  cases p <;> rcases hc : check_state ty dead_band g position <;> simp [loopTick, hc]

/-- C4: for the electric type the per-tick convergence check returns true
exactly when the reported force strictly exceeds the actuator's
moving-force parameter or the distance from the target is strictly below
the dead band (so force alone suffices); and on any tick where the loop
condition holds and the check is true, the loop exits immediately with the
single `set_succeeded` report carrying the snapshot just computed. -/
theorem electric_convergence_check (dead_band timeout position : ℚ) (env : Env)
    (fuel n : ℕ) (fb : GripperCommandFeedback)
    (hrun : loopCond (env.elapsed n) timeout = true)
    (hconv : check_state .electric dead_band (env.gripper n) position = true) :
    (∀ g : GripperState, ∀ db tgt : ℚ,
      (check_state .electric db g tgt = true ↔
        (g.movingForceParam < g.force ∨ |g.position - tgt| < db))) ∧
    runLoop .electric dead_band timeout position env (fuel + 1) n fb =
      ((if env.preempt n then [Event.stopCalled] else []) ++
          [Event.setSucceeded
            (update_feedback .electric dead_band fb (env.gripper n) position)],
        some (update_feedback .electric dead_band fb (env.gripper n) position)) := by
  constructor
  · intro g db tgt
    simp [check_state]
  · simp [runLoop, hrun, loopTick, hconv]

/-- Witness for C4 at a stalled actuator: force 30 against moving-force
parameter 20 converges on the first tick although the position (0) is far
from the target (50). -/
theorem electric_convergence_check_witness :
    (∀ g : GripperState, ∀ db tgt : ℚ,
      (check_state .electric db g tgt = true ↔
        (g.movingForceParam < g.force ∨ |g.position - tgt| < db))) ∧
    runLoop .electric 2 5 50 envHigh (0 + 1) 1 fbZero =
      ((if envHigh.preempt 1 then [Event.stopCalled] else []) ++
          [Event.setSucceeded
            (update_feedback .electric 2 fbZero (envHigh.gripper 1) 50)],
        some (update_feedback .electric 2 fbZero (envHigh.gripper 1) 50)) :=
  electric_convergence_check 2 5 50 envHigh 0 1 fbZero
    (by norm_num [loopCond, envHigh])
    (by norm_num [check_state, envHigh, gHigh])

theorem runLoop_preempt_invariant (ty : EffectorType)
    (dead_band timeout position : ℚ) (env env' : Env)
    (hg : env.gripper = env'.gripper) (he : env.elapsed = env'.elapsed) :
    ∀ fuel n fb,
      ((runLoop ty dead_band timeout position env fuel n fb).1.filter Event.isTerminal =
        (runLoop ty dead_band timeout position env' fuel n fb).1.filter Event.isTerminal) ∧
      ((runLoop ty dead_band timeout position env fuel n fb).2 =
        (runLoop ty dead_band timeout position env' fuel n fb).2) := by
  intro fuel
  induction fuel with
  | zero => exact fun n fb => ⟨rfl, rfl⟩
  | succ fuel ih =>
    intro n fb
    have hel : env'.elapsed n = env.elapsed n := by rw [he]
    have hgr : env'.gripper n = env.gripper n := by rw [hg]
    rw [runLoop, runLoop, hel, hgr]
    simp only []
    by_cases hcond : loopCond (env.elapsed n) timeout = true
    · rw [if_pos hcond, if_pos hcond]
      have hsnd : (loopTick ty dead_band position (env.gripper n) (env'.preempt n) fb).2 =
          (loopTick ty dead_band position (env.gripper n) (env.preempt n) fb).2 := by
        rw [loopTick_snd, loopTick_snd ty dead_band position (env.gripper n) (env.preempt n) fb]
      rw [hsnd]
      by_cases hd : (loopTick ty dead_band position (env.gripper n) (env.preempt n) fb).2.2 = true
      · rw [if_pos hd, if_pos hd]
        exact ⟨by rw [loopTick_filter_terminal, loopTick_filter_terminal], rfl⟩
      · rw [if_neg hd, if_neg hd]
        refine ⟨?_, (ih (n + 1) _).2⟩
        rw [List.filter_append, List.filter_append,
          loopTick_filter_terminal, loopTick_filter_terminal, (ih (n + 1) _).1]
    · rw [if_neg hcond, if_neg hcond]
      exact ⟨rfl, rfl⟩

/-- C5: on any tick in which preemption is requested the tick's event list
is the single `stop()` call prepended to the events of the same tick
without preemption (so `stop()` is invoked exactly once on that tick and
never otherwise), the tick's feedback and convergence verdict are unchanged
by the preempt flag, and over whole runs the terminal reports and the final
result are invariant under changing the preempt trace: the outcome is
decided solely by the convergence and timeout rules. -/
theorem preempt_stops_once_never_decides_outcome (ty : EffectorType)
    (dead_band timeout position : ℚ) (env env' : Env)
    (hg : env.gripper = env'.gripper) (he : env.elapsed = env'.elapsed) :
    (∀ g : GripperState, ∀ fb : GripperCommandFeedback,
      (loopTick ty dead_band position g true fb).1 =
        Event.stopCalled :: (loopTick ty dead_band position g false fb).1 ∧
      (loopTick ty dead_band position g true fb).1.countP (fun e => Event.isStop e) = 1 ∧
      (loopTick ty dead_band position g false fb).1.countP (fun e => Event.isStop e) = 0 ∧
      (loopTick ty dead_band position g true fb).2 =
        (loopTick ty dead_band position g false fb).2) ∧
    (∀ fuel n fb,
      ((runLoop ty dead_band timeout position env fuel n fb).1.filter Event.isTerminal =
        (runLoop ty dead_band timeout position env' fuel n fb).1.filter Event.isTerminal) ∧
      ((runLoop ty dead_band timeout position env fuel n fb).2 =
        (runLoop ty dead_band timeout position env' fuel n fb).2)) := by
  refine ⟨fun g fb => ⟨?_, ?_, ?_, loopTick_snd ty dead_band position g true fb⟩,
    runLoop_preempt_invariant ty dead_band timeout position env env' hg he⟩
  · rw [loopTick_fst ty dead_band position g true fb]
    rfl
  · rw [loopTick_countStop]
    rfl
  · rw [loopTick_countStop]
    rfl

/-- Trace identical to `envHigh` except that preemption is requested at
every tick. -/
def envHighPre : Env :=
  { gripper := fun _ => gHigh, preempt := fun _ => true, elapsed := fun n => (n : ℚ) }

/-- Witness for C5: `envHigh` and `envHighPre` share the actuator and clock
traces and differ only in the preempt trace. -/
theorem preempt_stops_once_never_decides_outcome_witness :
    (∀ g : GripperState, ∀ fb : GripperCommandFeedback,
      (loopTick .electric 2 50 g true fb).1 =
        Event.stopCalled :: (loopTick .electric 2 50 g false fb).1 ∧
      (loopTick .electric 2 50 g true fb).1.countP (fun e => Event.isStop e) = 1 ∧
      (loopTick .electric 2 50 g false fb).1.countP (fun e => Event.isStop e) = 0 ∧
      (loopTick .electric 2 50 g true fb).2 =
        (loopTick .electric 2 50 g false fb).2) ∧
    (∀ fuel n fb,
      ((runLoop .electric 2 5 50 envHigh fuel n fb).1.filter Event.isTerminal =
        (runLoop .electric 2 5 50 envHighPre fuel n fb).1.filter Event.isTerminal) ∧
      ((runLoop .electric 2 5 50 envHigh fuel n fb).2 =
        (runLoop .electric 2 5 50 envHighPre fuel n fb).2)) :=
  preempt_stops_once_never_decides_outcome .electric 2 5 50 envHigh envHighPre rfl rfl

theorem runLoop_no_abort_of_neg (ty : EffectorType)
    (dead_band timeout position : ℚ) (env : Env) (hneg : timeout < 0) :
    ∀ fuel n fb,
      ((runLoop ty dead_band timeout position env fuel n fb).1.countP
          (fun e => Event.isAbortedResult e) = 0) ∧
      ∀ r, (runLoop ty dead_band timeout position env fuel n fb).2 = some r →
        (runLoop ty dead_band timeout position env fuel n fb).1.filter Event.isTerminal =
          [Event.setSucceeded r] := by
  intro fuel
  induction fuel with
  | zero =>
    intro n fb
    exact ⟨rfl, fun r hr => by cases hr⟩
  | succ fuel ih =>
    intro n fb
    have hcond : loopCond (env.elapsed n) timeout = true := by
      simp [loopCond, hneg]
    rw [runLoop]
    simp only []
    rw [if_pos hcond]
    by_cases hd : (loopTick ty dead_band position (env.gripper n) (env.preempt n) fb).2.2 = true
    · rw [if_pos hd]
      dsimp only
      have hc : check_state ty dead_band (env.gripper n) position = true := by
        rw [← loopTick_done ty dead_band position (env.gripper n) (env.preempt n) fb]
        exact hd
      refine ⟨by rw [loopTick_countAborted], fun r hr => ?_⟩
      have hr' : (loopTick ty dead_band position (env.gripper n) (env.preempt n) fb).2.1 = r :=
        Option.some.inj hr
      rw [loopTick_filter_terminal, hc, if_pos rfl]
      rw [loopTick_fb] at hr'
      rw [hr']
    · rw [if_neg hd]
      dsimp only
      have hc : check_state ty dead_band (env.gripper n) position = false := by
        rw [← loopTick_done ty dead_band position (env.gripper n) (env.preempt n) fb]
        exact Bool.not_eq_true _ ▸ Bool.of_not_eq_true hd
      refine ⟨?_, fun r hr => ?_⟩
      · rw [List.countP_append, loopTick_countAborted, (ih (n + 1) _).1]
      · rw [List.filter_append, loopTick_filter_terminal, hc, if_neg Bool.false_ne_true,
          (ih (n + 1) _).2 r hr]
        rfl

/-- C6: the loop condition is exactly `elapsed < timeout or timeout < 0`;
with a negative timeout it holds at every instant, so the run never
produces the timeout-path `set_aborted` report and any terminal report it
makes is a `set_succeeded` from the convergence check. -/
theorem negative_timeout_never_times_out (ty : EffectorType)
    (dead_band timeout position : ℚ) (env : Env) (hneg : timeout < 0) :
    (∀ e t : ℚ, loopCond e t = true ↔ (e < t ∨ t < 0)) ∧
    (∀ e : ℚ, loopCond e timeout = true) ∧
    ∀ fuel n fb,
      ((runLoop ty dead_band timeout position env fuel n fb).1.countP
          (fun e => Event.isAbortedResult e) = 0) ∧
      ∀ r, (runLoop ty dead_band timeout position env fuel n fb).2 = some r →
        (runLoop ty dead_band timeout position env fuel n fb).1.filter Event.isTerminal =
          [Event.setSucceeded r] :=
  ⟨fun e t => by simp [loopCond],
    fun e => by simp [loopCond, hneg],
    runLoop_no_abort_of_neg ty dead_band timeout position env hneg⟩

/-- Witness for C6 at timeout -1 over the never-converging trace. -/
theorem negative_timeout_never_times_out_witness :
    (-1 : ℚ) < 0 ∧
    ((∀ e t : ℚ, loopCond e t = true ↔ (e < t ∨ t < 0)) ∧
      (∀ e : ℚ, loopCond e (-1) = true) ∧
      ∀ fuel n fb,
        ((runLoop .electric 2 (-1) 50 envFar fuel n fb).1.countP
            (fun e => Event.isAbortedResult e) = 0) ∧
        ∀ r, (runLoop .electric 2 (-1) 50 envFar fuel n fb).2 = some r →
          (runLoop .electric 2 (-1) 50 envFar fuel n fb).1.filter Event.isTerminal =
            [Event.setSucceeded r]) :=
  ⟨by norm_num,
    negative_timeout_never_times_out .electric 2 (-1) 50 envFar (by norm_num)⟩

theorem runLoop_suction_no_succeeded (dead_band timeout position : ℚ) (env : Env) :
    ∀ fuel n fb,
      (runLoop .suction dead_band timeout position env fuel n fb).1.countP
        (fun e => Event.isSucceeded e) = 0 := by
  intro fuel
  induction fuel with
  | zero => exact fun n fb => rfl
  | succ fuel ih =>
    intro n fb
    rw [runLoop]
    simp only []
    by_cases hcond : loopCond (env.elapsed n) timeout = true
    · rw [if_pos hcond]
      have hd : (loopTick .suction dead_band position (env.gripper n) (env.preempt n) fb).2.2 =
          false := by
        rw [loopTick_done]
        rfl
      rw [hd]
      rw [if_neg Bool.false_ne_true]
      dsimp only
      rw [List.countP_append, loopTick_countSucceeded]
      have hc : check_state .suction dead_band (env.gripper n) position = false := rfl
      rw [hc, if_neg Bool.false_ne_true, ih (n + 1)]
    · rw [if_neg hcond]
      dsimp only
      simp [Event.isSucceeded]

theorem runLoop_suction_abort (dead_band timeout position : ℚ) (env : Env) :
    ∀ fuel n fb m, n ≤ m → m < n + fuel →
      loopCond (env.elapsed m) timeout = false →
      ∃ r, (runLoop .suction dead_band timeout position env fuel n fb).2 = some r ∧
        (runLoop .suction dead_band timeout position env fuel n fb).1.filter
          Event.isTerminal = [Event.setAborted r] := by
  intro fuel
  induction fuel with
  | zero =>
    intro n fb m h1 h2 _
    omega
  | succ fuel ih =>
    intro n fb m h1 h2 h3
    rw [runLoop]
    simp only []
    by_cases hcond : loopCond (env.elapsed n) timeout = true
    · have hnm : n ≠ m := by
        intro hEq
        rw [hEq, h3] at hcond
        cases hcond
      rw [if_pos hcond]
      have hd : (loopTick .suction dead_band position (env.gripper n) (env.preempt n) fb).2.2 =
          false := by
        rw [loopTick_done]
        rfl
      rw [hd]
      rw [if_neg Bool.false_ne_true]
      dsimp only
      obtain ⟨r, hres, hfil⟩ :=
        ih (n + 1) (loopTick .suction dead_band position (env.gripper n) (env.preempt n) fb).2.1
          m (by omega) (by omega) h3
      refine ⟨r, hres, ?_⟩
      rw [List.filter_append, loopTick_filter_terminal]
      have hc : check_state .suction dead_band (env.gripper n) position = false := rfl
      rw [hc, if_neg Bool.false_ne_true, hfil]
      rfl
    · rw [if_neg hcond]
      dsimp only
      exact ⟨update_feedback .suction dead_band fb (env.gripper n) position, rfl, rfl⟩

/-- C10: for the suction type the convergence check never returns true (the
suction branch of `check_state` is commented out), a suction run never
reports `set_succeeded`, and whenever the (necessarily non-negative)
timeout expires at some tick reachable within the observed fuel, the run
terminates with the timeout-path `set_aborted` as its only terminal
report. -/
theorem suction_goal_never_succeeds (dead_band timeout position : ℚ) (env : Env)
    (fuel n m : ℕ) (fb : GripperCommandFeedback)
    (hnm : n ≤ m) (hmf : m < n + fuel)
    (hstop : loopCond (env.elapsed m) timeout = false) :
    (∀ db tgt : ℚ, ∀ g : GripperState, check_state .suction db g tgt = false) ∧
    (∀ fuel' n' fb',
      (runLoop .suction dead_band timeout position env fuel' n' fb').1.countP
        (fun e => Event.isSucceeded e) = 0) ∧
    ∃ r, (runLoop .suction dead_band timeout position env fuel n fb).2 = some r ∧
      (runLoop .suction dead_band timeout position env fuel n fb).1.filter
        Event.isTerminal = [Event.setAborted r] :=
  ⟨fun _ _ _ => rfl,
    fun fuel' n' fb' => runLoop_suction_no_succeeded dead_band timeout position env fuel' n' fb',
    runLoop_suction_abort dead_band timeout position env fuel n fb m hnm hmf hstop⟩

/-- Witness for C10: with timeout 2 over the one-second-per-tick trace the
condition fails at tick 2, inside fuel 5 starting from tick 1. -/
theorem suction_goal_never_succeeds_witness :
    ((1 : ℕ) ≤ 2 ∧ (2 : ℕ) < 1 + 5 ∧ loopCond (envFar.elapsed 2) 2 = false) ∧
    ((∀ db tgt : ℚ, ∀ g : GripperState, check_state .suction db g tgt = false) ∧
      (∀ fuel' n' fb',
        (runLoop .suction 2 2 50 envFar fuel' n' fb').1.countP
          (fun e => Event.isSucceeded e) = 0) ∧
      ∃ r, (runLoop .suction 2 2 50 envFar 5 1 fbZero).2 = some r ∧
        (runLoop .suction 2 2 50 envFar 5 1 fbZero).1.filter
          Event.isTerminal = [Event.setAborted r]) :=
  ⟨⟨by norm_num, by norm_num, by norm_num [loopCond, envFar]⟩,
    suction_goal_never_succeeds 2 2 50 envFar 5 1 2 fbZero (by norm_num) (by norm_num)
      (by norm_num [loopCond, envFar])⟩

/-- Configuration storage with every key absent. -/
def cfgEmpty : Config := fun _ => none

/-- Previously held control parameters, as at the end of construction. -/
def stPrior : ServerParams :=
  { timeout := 5, dead_band := 2, velocity := 50, moving_force := 40, holding_force := 30 }

theorem on_gripper_action_cfg_error (ty : EffectorType) (ee : String) (cfg : Config)
    (err : Bool) (st st' : ServerParams) (gp ge : ℚ) (env : Env) (fuel : ℕ)
    (fb0 : GripperCommandFeedback)
    (h : get_gripper_parameters ty ee cfg st = .error st') :
    on_gripper_action_cfg ty ee cfg err st gp ge env fuel fb0 = .error st' := by
  unfold on_gripper_action_cfg
  rw [h]

theorem get_gripper_parameters_error_of_missing (ee : String) (cfg : Config)
    (st : ServerParams)
    (hmiss : cfg (ee ++ "_timeout") = none ∨ cfg (ee ++ "_goal") = none ∨
      cfg (ee ++ "_velocity") = none ∨ cfg (ee ++ "_moving_force") = none ∨
      cfg (ee ++ "_holding_force") = none) :
    ∃ st', get_gripper_parameters .electric ee cfg st = .error st' := by
  rcases h0 : cfg (ee ++ "_timeout") with _ | t
  · exact ⟨st, by simp [get_gripper_parameters, h0]⟩
  rcases h1 : cfg (ee ++ "_goal") with _ | db
  · exact ⟨{ st with timeout := t }, by simp [get_gripper_parameters, h0, h1]⟩
  rcases h2 : cfg (ee ++ "_velocity") with _ | v
  · exact ⟨{ st with timeout := t, dead_band := db },
      by simp [get_gripper_parameters, h0, h1, h2]⟩
  rcases h3 : cfg (ee ++ "_moving_force") with _ | mf
  · exact ⟨{ st with timeout := t, dead_band := db, velocity := v },
      by simp [get_gripper_parameters, h0, h1, h2, h3]⟩
  rcases h4 : cfg (ee ++ "_holding_force") with _ | hf
  · exact ⟨{ st with timeout := t, dead_band := db, velocity := v, moving_force := mf },
      by simp [get_gripper_parameters, h0, h1, h2, h3, h4]⟩
  rcases hmiss with h | h | h | h | h
  · rw [h] at h0
    cases h0
  · rw [h] at h1
    cases h1
  · rw [h] at h2
    cases h2
  · rw [h] at h3
    cases h3
  · rw [h] at h4
    cases h4

/-- C2 counterexample: with the requested keys absent from configuration
storage, the execute callback raises `KeyError` out of the call (modelled
as `.error`), instead of retaining the prior parameters and continuing the
goal. -/
theorem missing_key_raises_out_of_execute :
    on_gripper_action_cfg .electric "left_gripper" cfgEmpty false stPrior 50 0 envFar 1
      fbZero = .error stPrior := rfl

/-- C2 amended: when a requested configuration key is absent, parameter
resolution raises a `KeyError` that propagates out of the execute call and
the goal does not continue; the fields assigned before the missing key keep
their freshly read values and the remaining ones retain the previous
values — in particular with the timeout key itself missing, all prior
values are retained in the raising object. -/
theorem missing_key_propagates_keyerror (ee : String) (cfg : Config)
    (st : ServerParams) (err : Bool) (gp ge : ℚ) (env : Env) (fuel : ℕ)
    (fb0 : GripperCommandFeedback)
    (hmiss : cfg (ee ++ "_timeout") = none ∨ cfg (ee ++ "_goal") = none ∨
      cfg (ee ++ "_velocity") = none ∨ cfg (ee ++ "_moving_force") = none ∨
      cfg (ee ++ "_holding_force") = none) :
    (∃ st', on_gripper_action_cfg .electric ee cfg err st gp ge env fuel fb0 =
      .error st') ∧
    (cfg (ee ++ "_timeout") = none →
      on_gripper_action_cfg .electric ee cfg err st gp ge env fuel fb0 = .error st) := by
  obtain ⟨st', hst'⟩ := get_gripper_parameters_error_of_missing ee cfg st hmiss
  refine ⟨⟨st', on_gripper_action_cfg_error .electric ee cfg err st st' gp ge env fuel
    fb0 hst'⟩, fun h0 => ?_⟩
  exact on_gripper_action_cfg_error .electric ee cfg err st st gp ge env fuel fb0
    (by simp [get_gripper_parameters, h0])

/-- Witness for C2's amended claim at the empty configuration. -/
theorem missing_key_propagates_keyerror_witness :
    cfgEmpty ("left_gripper" ++ "_timeout") = none ∧
    ((∃ st', on_gripper_action_cfg .electric "left_gripper" cfgEmpty false stPrior 50 0
        envFar 1 fbZero = .error st') ∧
      (cfgEmpty ("left_gripper" ++ "_timeout") = none →
        on_gripper_action_cfg .electric "left_gripper" cfgEmpty false stPrior 50 0
          envFar 1 fbZero = .error stPrior)) :=
  ⟨rfl, missing_key_propagates_keyerror "left_gripper" cfgEmpty stPrior false 50 0 envFar
    1 fbZero (Or.inl rfl)⟩
